import Mathlib

/-!
Verification of the BloodPressure bot's response-normalization pipeline.

This file is a shallow embedding of the pure logic of the repository:

* `gemini_service.py` — the inner parse region of `analyze_tensimeter_image`
  and `analyze_text_with_gemini` (fence stripping, `json.loads`, token-count
  attachment, the `JSONDecodeError` fallback, and the outer `except Exception`
  that catches the `TypeError` raised when the parsed value is not a dict);
* `gsheet_service.py` — `send_to_gsheet`;
* `telegram_handlers.py` — `handle_photo` and `handle_text_message`
  (authorization check, branch structure over the returned dict, date
  enrichment, GSheet relay, reply rendering).

Python strings are modelled as `List Char`; Python dicts as ordered
association lists with Python assignment semantics (update in place, append
when absent); `json.loads` is modelled by an executable recursive-descent
JSON parser over `List Char`.  Network and Telegram I/O are modelled as
explicit parameters (the provider's completion text, the HTTP outcome of the
relay POST) and as an effect trace emitted by the handler functions.
-/

/-- Python strings are modelled as lists of characters. -/
abbrev Str := List Char

/-- Embed a Lean string literal as a modelled Python string. -/
def s2l (s : String) : Str := s.data

/-- The whitespace characters accepted between JSON tokens by Python's
`json.loads` (JSON whitespace: space, tab, linefeed, carriage return). -/
def isJsonWs (c : Char) : Bool := c == ' ' || c == '\t' || c == '\n' || c == '\r'

/-- Drop leading JSON whitespace. -/
def skipWs : Str → Str
  | [] => []
  | c :: cs => if isJsonWs c then skipWs cs else c :: cs

/-- Characters removed by Python's `str.strip()` (the ASCII whitespace the
completion text could realistically carry). -/
def isPyWs (c : Char) : Bool :=
  c == ' ' || c == '\t' || c == '\n' || c == '\r' || c == '\x0b' || c == '\x0c'

/-- Model of Python `str.strip()`: remove leading and trailing whitespace. -/
def pyStrip (s : Str) : Str :=
  ((s.dropWhile isPyWs).reverse.dropWhile isPyWs).reverse

/-- Model of Python `str.startswith`: `startsWith p s` holds when `p` is a
leading segment of `s`. -/
def startsWith : Str → Str → Bool
  | [], _ => true
  | _ :: _, [] => false
  | p :: ps, c :: cs => p == c && startsWith ps cs

/-- Model of Python `str.endswith`: `endsWith p s` holds when `p` is a
trailing segment of `s`. -/
def endsWith (p s : Str) : Bool := startsWith p.reverse s.reverse

/-- The values `json.loads` can produce.  Integral JSON numbers are Python
ints (`num`); numbers with a fraction or exponent part are Python floats,
kept symbolically as `dec m e` (value `m * 10 ^ e`) to stay in exact
arithmetic — no claim inspects a float's value. -/
inductive Json where
  | null
  | bool (b : Bool)
  | num (n : Int)
  | dec (m : Int) (e : Int)
  | str (s : Str)
  | arr (xs : List Json)
  | obj (fields : List (Str × Json))
  deriving Repr

/-- A Python dict produced by `json.loads` (string keys, insertion ordered).
Modelled as an ordered association list. -/
abbrev Record := List (Str × Json)

/-- Python `d.get(k)` / `k in d`: value at the first matching key. -/
def dictGet (d : Record) (k : Str) : Option Json :=
  match d with
  | [] => none
  | (k', v) :: rest => if k' == k then some v else dictGet rest k

/-- Python `d.get(k, default)`. -/
def dictGetD (d : Record) (k : Str) (dflt : Json) : Json :=
  (dictGet d k).getD dflt

/-- Python `k in d`. -/
def dictContains (d : Record) (k : Str) : Bool := (dictGet d k).isSome

/-- Python `d[k] = v`: replace the value at an existing key in place,
otherwise append the new binding at the end. -/
def dictSet (d : Record) (k : Str) (v : Json) : Record :=
  match d with
  | [] => [(k, v)]
  | (k', v') :: rest =>
    if k' == k then (k', v) :: rest else (k', v') :: dictSet rest k v

/-- Python `d.setdefault(k, v)`. -/
def dictSetdefault (d : Record) (k : Str) (v : Json) : Record :=
  if dictContains d k then d else d ++ [(k, v)]

/-- Whether a parsed value is a Python dict (`isinstance(x, dict)`). -/
def Json.isObjB : Json → Bool
  | .obj _ => true
  | _ => false

/-- Decimal digit test used by the number grammar. -/
def isDigitCh (c : Char) : Bool := '0' ≤ c && c ≤ '9'

/-- Longest leading run of decimal digits, and the rest. -/
def takeDigits : Str → (Str × Str)
  | [] => ([], [])
  | c :: cs =>
    if isDigitCh c then
      let (ds, r) := takeDigits cs
      (c :: ds, r)
    else ([], c :: cs)

/-- Numeric value of a digit string. -/
def digitsToNat : Str → Nat → Nat
  | [], acc => acc
  | c :: cs, acc => digitsToNat cs (acc * 10 + (c.toNat - '0'.toNat))

/-- Hex digit value, if any (code points: 0-9 are 48-57, a-f 97-102, A-F 65-70). -/
def hexVal (c : Char) : Option Nat :=
  let n := c.toNat
  if isDigitCh c then some (n - 48)
  else if 97 ≤ n && n ≤ 102 then some (n - 87)
  else if 65 ≤ n && n ≤ 70 then some (n - 55)
  else none

/-- Body of a JSON string literal, positioned just after the opening quote.
Returns the decoded content and the rest of the input after the closing
quote.  Mirrors Python's strict decoder: escapes are decoded, unescaped
control characters are rejected. -/
def parseStringBody : Str → Option (Str × Str)
  | [] => none
  | c :: cs =>
    if c == '"' then some ([], cs)
    else if c == '\\' then
      match cs with
      | [] => none
      | e :: cs2 =>
        if e == 'u' then
          match cs2 with
          | h1 :: h2 :: h3 :: h4 :: cs3 =>
            match hexVal h1, hexVal h2, hexVal h3, hexVal h4 with
            | some a, some b, some c3, some d =>
              match parseStringBody cs3 with
              | some (r, rest) =>
                some (Char.ofNat (((a * 16 + b) * 16 + c3) * 16 + d) :: r, rest)
              | none => none
            | _, _, _, _ => none
          | _ => none
        else
          match
            (if e == '"' then some '"'
             else if e == '\\' then some '\\'
             else if e == '/' then some '/'
             else if e == 'b' then some '\x08'
             else if e == 'f' then some '\x0c'
             else if e == 'n' then some '\n'
             else if e == 'r' then some '\r'
             else if e == 't' then some '\t'
             else none) with
          | some ch =>
            match parseStringBody cs2 with
            | some (r, rest) => some (ch :: r, rest)
            | none => none
          | none => none
    else if c.toNat < 32 then none
    else
      match parseStringBody cs with
      | some (r, rest) => some (c :: r, rest)
      | none => none

/-- A JSON number starting at the current position (first char is `-` or a
digit).  Integral numbers become Python ints (`Json.num`); numbers with a
fraction or exponent become Python floats (`Json.dec`). -/
def parseNumber (s : Str) : Option (Json × Str) :=
  let (neg, s1) :=
    match s with
    | c :: cs => if c == '-' then (true, cs) else (false, s)
    | [] => (false, s)
  match takeDigits s1 with
  | ([], _) => none
  | (ds, r1) =>
    -- JSON forbids leading zeros: the integer part is `0` or starts 1-9.
    if ds.length > 1 && ds.headI == '0' then none
    else
      let (fds, r2) :=
        match r1 with
        | '.' :: r1' =>
          match takeDigits r1' with
          | ([], _) => ([], r1)  -- a lone dot is rejected below
          | (fs, r') => (fs, r')
        | _ => ([], r1)
      let fracPresent := !fds.isEmpty
      let fracBad :=
        match r1 with
        | '.' :: _ => !fracPresent
        | _ => false
      if fracBad then none
      else
        let (expPresent, expOk, eVal, r3) :=
          match r2 with
          | c :: r2' =>
            if c == 'e' || c == 'E' then
              let (esign, r2b) :=
                match r2' with
                | c2 :: r2b' =>
                  if c2 == '-' then (true, r2b')
                  else if c2 == '+' then (false, r2b')
                  else (false, r2')
                | [] => (false, r2')
              match takeDigits r2b with
              | ([], _) => (true, false, (0 : Int), r2)
              | (es, r') =>
                let ev : Int := Int.ofNat (digitsToNat es 0)
                (true, true, if esign then -ev else ev, r')
            else (false, true, 0, r2)
          | [] => (false, true, 0, r2)
        if expPresent && !expOk then none
        else
          let intVal : Int := Int.ofNat (digitsToNat ds 0)
          if !fracPresent && !expPresent then
            some (Json.num (if neg then -intVal else intVal), r3)
          else
            let m : Int := Int.ofNat (digitsToNat (ds ++ fds) 0)
            let m' := if neg then -m else m
            some (Json.dec m' (eVal - Int.ofNat fds.length), r3)

mutual

/-- One JSON value starting at the current position (leading whitespace
allowed), with the remaining input.  Fuel bounds the recursion; `jsonLoads`
supplies enough for any input. -/
def parseVal : Nat → Str → Option (Json × Str)
  | 0, _ => none
  | Nat.succ fuel, s =>
    match skipWs s with
    | [] => none
    | c :: cs =>
      if c == '{' then
        match skipWs cs with
        | '}' :: cs' => some (Json.obj [], cs')
        | _ => parseMembers fuel [] cs
      else if c == '[' then
        match skipWs cs with
        | ']' :: cs' => some (Json.arr [], cs')
        | _ => parseElems fuel [] cs
      else if c == '"' then
        match parseStringBody cs with
        | some (str, rest) => some (Json.str str, rest)
        | none => none
      else if c == 't' then
        if startsWith (s2l "rue") cs then some (Json.bool true, cs.drop 3) else none
      else if c == 'f' then
        if startsWith (s2l "alse") cs then some (Json.bool false, cs.drop 4) else none
      else if c == 'n' then
        if startsWith (s2l "ull") cs then some (Json.null, cs.drop 3) else none
      else if c == '-' || isDigitCh c then
        parseNumber (c :: cs)
      else none

/-- Members of a JSON object, positioned at the first character of a key
(whitespace allowed).  Duplicate keys overwrite in place, as repeated
Python dict assignment does. -/
def parseMembers : Nat → Record → Str → Option (Json × Str)
  | 0, _, _ => none
  | Nat.succ fuel, acc, s =>
    match skipWs s with
    | [] => none
    | c :: cs =>
      if c == '"' then
        match parseStringBody cs with
        | none => none
        | some (k, r1) =>
          match skipWs r1 with
          | ':' :: r2 =>
            match parseVal fuel r2 with
            | none => none
            | some (v, r3) =>
              match skipWs r3 with
              | ',' :: r4 => parseMembers fuel (dictSet acc k v) r4
              | '}' :: r4 => some (Json.obj (dictSet acc k v), r4)
              | _ => none
          | _ => none
      else none

/-- Elements of a JSON array, positioned at the first character of an
element (whitespace allowed). -/
def parseElems : Nat → List Json → Str → Option (Json × Str)
  | 0, _, _ => none
  | Nat.succ fuel, acc, s =>
    match parseVal fuel s with
    | none => none
    | some (v, r) =>
      match skipWs r with
      | ',' :: r2 => parseElems fuel (acc ++ [v]) r2
      | ']' :: r2 => some (Json.arr (acc ++ [v]), r2)
      | _ => none

end

/-- Model of Python `json.loads`: parse one JSON value and require only
whitespace after it.  `none` models `json.JSONDecodeError`.  (The non-JSON
extensions `NaN`/`Infinity` accepted by CPython are not modelled; no claim
depends on them.) -/
def jsonLoads (s : Str) : Option Json :=
  match parseVal (2 * s.length + 4) s with
  | some (v, rest) => if (skipWs rest).isEmpty then some v else none
  | none => none

example : jsonLoads (s2l "\x7b\x22a\x22: 1\x7d") = some (Json.obj [(s2l "a", Json.num 1)]) := rfl
example : jsonLoads (s2l " [1, true, \x22x\x22] ") =
    some (Json.arr [Json.num 1, Json.bool true, Json.str (s2l "x")]) := rfl
example : jsonLoads (s2l "\x7b\x7d") = some (Json.obj []) := rfl
example : jsonLoads (s2l "") = none := rfl
example : jsonLoads (s2l "1.5e2") = some (Json.dec 15 1) := rfl
example : jsonLoads (s2l "-07") = none := rfl
example : jsonLoads (s2l "null") = some Json.null := rfl
example : jsonLoads (s2l "\x7b\x22a\x22:1,\x22a\x22:2\x7d") =
    some (Json.obj [(s2l "a", Json.num 2)]) := rfl

/-! ## Dictionary keys and string constants of the pipeline -/

/-- Reserved key carrying a provider or transport error message. -/
def kError : Str := s2l "error"

/-- Reserved key carrying the unparsed raw completion text. -/
def kRawText : Str := s2l "raw_text"

/-- Reserved key carrying the JSON parse failure description. -/
def kErrorDetail : Str := s2l "error_detail"

/-- Reserved key carrying the token-usage count. -/
def kTokenCount : Str := s2l "_token_count"

/-- Domain field keys. -/
def kDate : Str := s2l "date"

/-- Systolic blood pressure field key. -/
def kSystolic : Str := s2l "systolic"

/-- Diastolic blood pressure field key. -/
def kDiastolic : Str := s2l "diastolic"

/-- Heart-rate field key. -/
def kHeartRate : Str := s2l "heart_rate"

/-- Waist-circumference field key (text-derived records). -/
def kLingkarPerut : Str := s2l "lingkar_perut"

/-- Body-weight field key (text-derived records). -/
def kBeratBadan : Str := s2l "berat_badan"

/-- The sentinel value for fields the provider could not determine. -/
def notVisible : Str := s2l "Not visible"

/-- Default shown in the reply for missing fields. -/
def naStr : Str := s2l "N/A"

/-- The JSON-tagged opening fence marker recognized by both analysis paths. -/
def jsonFence : Str := s2l "```json"

/-- The generic fence marker: recognized as an opening fence only by the
text-analysis path, and as a closing fence by both paths. -/
def genericFence : Str := s2l "```"

/-! ## Python value rendering and truthiness -/

/-- Decimal rendering of a Python int. -/
def intToStr (n : Int) : Str :=
  if n < 0 then '-' :: Nat.toDigits 10 n.natAbs else Nat.toDigits 10 n.toNat

/-- Model of Python `str()` as used by the f-strings of the handlers.  Exact
for the values the pipeline actually renders (strings and ints); the float
and container renderings are abstract placeholders, which no claim
constrains. -/
def pyStr : Json → Str
  | .null => s2l "None"
  | .bool true => s2l "True"
  | .bool false => s2l "False"
  | .num n => intToStr n
  | .dec m e => intToStr m ++ ('e' :: intToStr e)
  | .str s => s
  | .arr _ => s2l "[...]"
  | .obj _ => s2l "\x7b...\x7d"

/-- Model of Python `==` between a JSON-derived value and a string literal,
the only value comparison the pipeline performs (`date_val == "Not visible"`):
true exactly for an equal string; any non-string value compares unequal to a
string in Python. -/
def pyEqStr (v : Json) (s : Str) : Bool :=
  match v with
  | .str a => a == s
  | _ => false

/-- Python truthiness (`not x`) of a JSON-derived value. -/
def pyFalsy : Json → Bool
  | .null => true
  | .bool b => !b
  | .num n => n == 0
  | .dec m _ => m == 0
  | .str s => s.isEmpty
  | .arr xs => xs.isEmpty
  | .obj fs => fs.isEmpty

/-! ## Response normalization (`gemini_service.py`) -/

/-- Fence stripping of the image-analysis path (`analyze_tensimeter_image`,
gemini_service.py lines 47-50): drop a leading JSON-tagged fence marker
(exactly 7 characters) if present, then drop a trailing fence marker
(3 characters) if present.  The generic opening fence is NOT recognized on
this path. -/
def stripFencesImage (t : Str) : Str :=
  let t1 := if startsWith jsonFence t then t.drop 7 else t
  if endsWith genericFence t1 then t1.take (t1.length - 3) else t1

/-- Fence stripping of the text-analysis path (`analyze_text_with_gemini`,
gemini_service.py lines 102-108): drop a leading JSON-tagged fence (7
characters) or, failing that, a generic fence (3 characters), then drop a
trailing fence marker if present. -/
def stripFencesText (t : Str) : Str :=
  let t1 :=
    if startsWith jsonFence t then t.drop 7
    else if startsWith genericFence t then t.drop 3
    else t
  if endsWith genericFence t1 then t1.take (t1.length - 3) else t1

/-- Abstraction of the CPython `JSONDecodeError` message text attached under
`error_detail`.  No claim constrains its content, only that a parse-failure
description accompanies the raw text. -/
def jsonDecodeErrMsg (s : Str) : Str :=
  s2l "could not parse as JSON near position 0 of " ++ Nat.toDigits 10 s.length

/-- The CPython `TypeError` message raised by `data["_token_count"] = n`
when `data` is not a dict (the parsed completion was valid JSON but not an
object).  The exact wording is version dependent; its content is not
constrained by any claim, only that the outcome is the error-keyed dict. -/
def pyTypeErrorMsg : Json → Str
  | .null => s2l "NoneType object does not support item assignment"
  | .bool _ => s2l "bool object does not support item assignment"
  | .num _ => s2l "int object does not support item assignment"
  | .dec _ _ => s2l "float object does not support item assignment"
  | .str _ => s2l "string indices must be integers"
  | .arr _ => s2l "list indices must be integers or slices, not str"
  | .obj _ => s2l "unreachable"

/-- The parse region of `analyze_tensimeter_image` (gemini_service.py lines
44-59) together with the outer `except Exception` (lines 64-69) as far as it
is reachable from this region: strip fences, `json.loads`, then

* a dict result gets the token count attached under `_token_count`;
* a non-dict result makes the `data["_token_count"] = ...` assignment raise
  `TypeError`, which the inner `except json.JSONDecodeError` does not catch;
  the outer handler returns the error dict;
* a parse failure returns the raw-text fallback dict. -/
def analyze_tensimeter_image_parse (response_text : Str) (token_count : Int) : Record :=
  let rt := stripFencesImage response_text
  match jsonLoads rt with
  | some (Json.obj data) => dictSet data kTokenCount (Json.num token_count)
  | some v => [(kError, Json.str (pyTypeErrorMsg v))]
  | none => [(kRawText, Json.str rt), (kErrorDetail, Json.str (jsonDecodeErrMsg rt))]

/-- The parse region of `analyze_text_with_gemini` (gemini_service.py lines
99-121), identical to the image path except for the fence stripping. -/
def analyze_text_with_gemini_parse (response_text : Str) (token_count : Int) : Record :=
  let rt := stripFencesText response_text
  match jsonLoads rt with
  | some (Json.obj data) => dictSet data kTokenCount (Json.num token_count)
  | some v => [(kError, Json.str (pyTypeErrorMsg v))]
  | none => [(kRawText, Json.str rt), (kErrorDetail, Json.str (jsonDecodeErrMsg rt))]

/-- What the provider returned for one request: a safety block with a
reason, a response with no content parts, or a completion text. -/
inductive ProviderResponse where
  | blocked (reason : Str)
  | noParts
  | completion (text : Str)

/-- Full normalization of `analyze_tensimeter_image` (gemini_service.py
lines 31-59) downstream of the provider call: blocked and empty responses
produce error dicts; a completion is stripped (`response.text.strip()`) and
parsed. -/
def analyze_tensimeter_image (resp : ProviderResponse) (token_count : Int) : Record :=
  match resp with
  | .blocked reason => [(kError, Json.str (s2l "Request blocked: " ++ reason))]
  | .noParts => [(kError, Json.str (s2l "No content parts in response."))]
  | .completion t => analyze_tensimeter_image_parse (pyStrip t) token_count

/-- Full normalization of `analyze_text_with_gemini` (gemini_service.py
lines 87-121) downstream of the provider call. -/
def analyze_text_with_gemini (resp : ProviderResponse) (token_count : Int) : Record :=
  match resp with
  | .blocked reason => [(kError, Json.str (s2l "Request blocked: " ++ reason))]
  | .noParts => [(kError, Json.str (s2l "No content parts in response."))]
  | .completion t => analyze_text_with_gemini_parse (pyStrip t) token_count

/-! ## Relay adapter (`gsheet_service.py`) -/

/-- The explicit timeout of the relay POST (`requests.post(..., timeout=20)`). -/
def gsheetTimeoutSeconds : Nat := 20

/-- Outcome of the one HTTP POST the relay may perform: a delivered response
with a status code, or a transport exception (`requests.exceptions.RequestException`). -/
inductive PostOutcome where
  | resp (status : Nat)
  | exc

/-- Model of `send_to_gsheet` (gsheet_service.py lines 7-23).  Returns the
boolean result together with the list of timeouts of the HTTP POSTs
performed (so "no network call" and "never retries" are visible in the
model).  `response.raise_for_status()` raises exactly for status codes in
400-599; the raised `HTTPError` is a `RequestException` and is caught. -/
def send_to_gsheet (data_json : Json) (webhook_url : Str) (net : PostOutcome) :
    Bool × List Nat :=
  if webhook_url.isEmpty then (false, [])
  else if !data_json.isObjB then (false, [])
  else
    match net with
    | .exc => (false, [gsheetTimeoutSeconds])
    | .resp status =>
      if 400 ≤ status && status < 600 then (false, [gsheetTimeoutSeconds])
      else (true, [gsheetTimeoutSeconds])

/-! ## Record enrichment (`telegram_handlers.py`) -/

/-- Date enrichment of the photo handler (telegram_handlers.py lines 70-77):
read `date` with default `"Not visible"`; if it equals the sentinel or the
key is absent, rewrite it to the current date string. -/
def enrich_photo_date (d : Record) (today : Str) : Record :=
  if pyEqStr (dictGetD d kDate (Json.str notVisible)) notVisible
      || !dictContains d kDate then
    dictSet d kDate (Json.str today)
  else d

/-- Date enrichment of the text handler (telegram_handlers.py lines 146-152):
as the photo handler, but additionally rewriting when the date value is
falsy (`not date_val`, e.g. the empty string). -/
def enrich_text_date (d : Record) (today : Str) : Record :=
  if pyEqStr (dictGetD d kDate (Json.str notVisible)) notVisible
      || pyFalsy (dictGetD d kDate (Json.str notVisible))
      || !dictContains d kDate then
    dictSet d kDate (Json.str today)
  else d

/-! ## Message handlers (`telegram_handlers.py`) -/

/-- Externally visible actions of one handler invocation, in order. -/
inductive Effect where
  | reply (msg : Str)
  | geminiCall
  | gsheetPost (timeoutSeconds : Nat)
  deriving Repr, BEq, DecidableEq

/-- Rejection reply for unauthorized senders. -/
def msgUnauthorized : Str := s2l "Maaf, Anda tidak berwenang untuk menggunakan fitur ini."

/-- Reply of the photo handler when the message carries no photo. -/
def msgSendImage : Str := s2l "Please send an image file."

/-- Acknowledgement reply of the photo handler. -/
def msgPhotoProcessing : Str := s2l "Image received! Processing with Gemini... 🧠✨"

/-- Acknowledgement reply of the text handler. -/
def msgTextProcessing : Str := s2l "Text message received! Analyzing with Gemini... 🧠💬"

/-- Reply header of the photo handler. -/
def photoHeader : Str := s2l "--- Extracted Data (Gemini) ---\n"

/-- Reply header of the text handler. -/
def textHeader : Str := s2l "--- Extracted Data from Text (Gemini) ---\n"

/-- Token-usage line appended to every pipeline reply; reads `_token_count`
with default `"N/A"` from the analysis result before any branch runs. -/
def tokenLine (d : Record) : Str :=
  s2l "\n🪙 Estimated input tokens: " ++ pyStr (dictGetD d kTokenCount (Json.str naStr))

/-- Reply body of the error branch (`"error" in extracted_data`): the error
message, then the optional `error_detail` and `raw_text` lines. -/
def errorBranchReply (header : Str) (d : Record) : Str :=
  let m1 := header ++ s2l "Error: " ++ pyStr (dictGetD d kError Json.null) ++ s2l "\n"
  let m2 :=
    if dictContains d kErrorDetail then
      m1 ++ s2l "Detail: " ++ pyStr (dictGetD d kErrorDetail Json.null) ++ s2l "\n"
    else m1
  if dictContains d kRawText then
    m2 ++ s2l "Raw text from Gemini: " ++ pyStr (dictGetD d kRawText Json.null) ++ s2l "\n"
  else m2

/-- Reply body of the raw-text branch (parse fallback): the raw completion
is echoed back.  (The source concatenates the raw value directly; it is a
string in every reachable record, rendered here with `pyStr`.) -/
def rawBranchReply (header : Str) (d : Record) : Str :=
  header ++ s2l "Could not parse JSON from Gemini. Raw output:\n"
    ++ pyStr (dictGetD d kRawText Json.null)

/-- Success-branch field lines of the photo handler, read from the record
after date enrichment (enrichment touches only `date`, and the displayed
date is the enriched one, as in the source). -/
def photoSuccessReply (d2 : Record) : Str :=
  photoHeader
  ++ s2l "Systolic (SYS): " ++ pyStr (dictGetD d2 kSystolic (Json.str naStr)) ++ s2l " mmHg\n"
  ++ s2l "Diastolic (DIA): " ++ pyStr (dictGetD d2 kDiastolic (Json.str naStr)) ++ s2l " mmHg\n"
  ++ s2l "Heart Rate (P/min): " ++ pyStr (dictGetD d2 kHeartRate (Json.str naStr)) ++ s2l " bpm\n"
  ++ s2l "Date: " ++ pyStr (dictGetD d2 kDate (Json.str notVisible)) ++ s2l "\n"

/-- Success-branch field lines of the text handler. -/
def textSuccessReply (d2 : Record) : Str :=
  textHeader
  ++ s2l "Systolic (SYS): " ++ pyStr (dictGetD d2 kSystolic (Json.str naStr)) ++ s2l " mmHg\n"
  ++ s2l "Diastolic (DIA): " ++ pyStr (dictGetD d2 kDiastolic (Json.str naStr)) ++ s2l " mmHg\n"
  ++ s2l "Heart Rate (P/min): " ++ pyStr (dictGetD d2 kHeartRate (Json.str naStr)) ++ s2l " bpm\n"
  ++ s2l "Waist Circumference (LP): " ++ pyStr (dictGetD d2 kLingkarPerut (Json.str naStr)) ++ s2l " cm\n"
  ++ s2l "Body Weight (BB): " ++ pyStr (dictGetD d2 kBeratBadan (Json.str naStr)) ++ s2l " kg\n"
  ++ s2l "Date: " ++ pyStr (dictGetD d2 kDate (Json.str notVisible)) ++ s2l "\n"

/-- Relay-status line appended to the success reply. -/
def gsheetStatusLine (ok : Bool) : Str :=
  if ok then s2l "\n✅ Data also saved to Google Sheets."
  else s2l "\n⚠️ Failed to save data to Google Sheets."

/-- Reply line when no relay URL is configured. -/
def gsheetNotConfiguredLine : Str :=
  s2l "\nℹ️ Google Sheets URL not configured; data not saved to GSheet."

/-- Reply of the unknown branch (`extracted_data` empty): the built header is
replaced wholesale by this message (only the token line is appended). -/
def msgPhotoNoData : Str := s2l "No data was extracted by Gemini or an unknown error occurred."

/-- Unknown-branch reply of the text handler. -/
def msgTextNoData : Str := s2l "No data was extracted from text by Gemini or an unknown error occurred."

/-- Model of `handle_photo` (telegram_handlers.py lines 22-107), given the
inbound envelope (sender id, photo presence), the analysis result the
provider call produced, the relay configuration and network outcome, and the
current date string.  Returns the externally visible effects in order and
the final state of `extracted_data` (`none` when the pipeline never ran).
The attachment download and directory creation are I/O outside the model. -/
def handle_photo (user_id authorized_user_id : Int) (has_photo : Bool)
    (extracted_data : Record) (app_script_url : Str) (net : PostOutcome)
    (today : Str) : List Effect × Option Record :=
  if !has_photo then ([Effect.reply msgSendImage], none)
  else if user_id != authorized_user_id then ([Effect.reply msgUnauthorized], none)
  else
    let pre := [Effect.reply msgPhotoProcessing, Effect.geminiCall]
    let tl := tokenLine extracted_data
    if !extracted_data.isEmpty && dictContains extracted_data kError then
      (pre ++ [Effect.reply (errorBranchReply photoHeader extracted_data ++ tl)],
       some extracted_data)
    else if !extracted_data.isEmpty && dictContains extracted_data kRawText then
      (pre ++ [Effect.reply (rawBranchReply photoHeader extracted_data ++ tl)],
       some extracted_data)
    else if !extracted_data.isEmpty then
      let d2 := enrich_photo_date extracted_data today
      let base := photoSuccessReply d2
      if !app_script_url.isEmpty then
        let sent := send_to_gsheet (Json.obj d2) app_script_url net
        (pre ++ sent.2.map Effect.gsheetPost
             ++ [Effect.reply (base ++ gsheetStatusLine sent.1 ++ tl)], some d2)
      else
        (pre ++ [Effect.reply (base ++ gsheetNotConfiguredLine ++ tl)], some d2)
    else
      (pre ++ [Effect.reply (msgPhotoNoData ++ tl)], some extracted_data)

/-- Model of `handle_text_message` (telegram_handlers.py lines 109-185).  As
`handle_photo`, with the text-path date enrichment and, when a relay URL is
configured, `setdefault` of the three blood-pressure keys before relaying. -/
def handle_text_message (user_id authorized_user_id : Int) (message_text : Str)
    (extracted_data : Record) (app_script_url : Str) (net : PostOutcome)
    (today : Str) : List Effect × Option Record :=
  if message_text.isEmpty then ([], none)
  else if user_id != authorized_user_id then ([Effect.reply msgUnauthorized], none)
  else
    let pre := [Effect.reply msgTextProcessing, Effect.geminiCall]
    let tl := tokenLine extracted_data
    if !extracted_data.isEmpty && dictContains extracted_data kError then
      (pre ++ [Effect.reply (errorBranchReply textHeader extracted_data ++ tl)],
       some extracted_data)
    else if !extracted_data.isEmpty && dictContains extracted_data kRawText then
      (pre ++ [Effect.reply (rawBranchReply textHeader extracted_data ++ tl)],
       some extracted_data)
    else if !extracted_data.isEmpty then
      let d2 := enrich_text_date extracted_data today
      let base := textSuccessReply d2
      if !app_script_url.isEmpty then
        let d3 := dictSetdefault (dictSetdefault (dictSetdefault d2
                    kSystolic (Json.str notVisible))
                    kDiastolic (Json.str notVisible))
                    kHeartRate (Json.str notVisible)
        let sent := send_to_gsheet (Json.obj d3) app_script_url net
        (pre ++ sent.2.map Effect.gsheetPost
             ++ [Effect.reply (base ++ gsheetStatusLine sent.1 ++ tl)], some d3)
      else
        (pre ++ [Effect.reply (base ++ gsheetNotConfiguredLine ++ tl)], some d2)
    else
      (pre ++ [Effect.reply (msgTextNoData ++ tl)], some extracted_data)

/-! ## Helper lemmas -/

theorem startsWith_append_self (p t : Str) : startsWith p (p ++ t) = true := by
  induction p with
  | nil => rfl
  | cons c cs ih => simp [startsWith, ih]

theorem startsWith_append_cancel (a b c : Str) :
    startsWith (a ++ b) (a ++ c) = startsWith b c := by
  induction a with
  | nil => rfl
  | cons x xs ih => simp [startsWith, ih]

theorem startsWith_cons_eq (p : Char) (ps : Str) (c : Char) (cs : Str)
    (h : startsWith (p :: ps) (c :: cs) = true) : p = c := by
  have h' := h
  simp [startsWith, Bool.and_eq_true] at h'
  exact h'.1

theorem drop_length_append (a b : Str) : (a ++ b).drop a.length = b := by
  induction a with
  | nil => rfl
  | cons x xs ih => simp [ih]

theorem take_length_append (a b : Str) : (a ++ b).take a.length = a := by
  induction a with
  | nil => rfl
  | cons x xs ih => simp [ih]

theorem take_append_sub (a b : Str) :
    (a ++ b).take ((a ++ b).length - b.length) = a := by
  have h : (a ++ b).length - b.length = a.length := by
    simp [List.length_append]
  rw [h, take_length_append]

theorem endsWith_append_self (s p : Str) : endsWith p (s ++ p) = true := by
  unfold endsWith
  rw [List.reverse_append]
  exact startsWith_append_self _ _

theorem dictGet_dictSet_self (d : Record) (k : Str) (v : Json) :
    dictGet (dictSet d k v) k = some v := by
  induction d with
  | nil => simp [dictSet, dictGet]
  | cons p rest ih =>
    obtain ⟨k', v'⟩ := p
    cases hk : (k' == k) with
    | true => simp [dictSet, dictGet, hk]
    | false => simp [dictSet, dictGet, hk, ih]

theorem dictGet_dictSet_ne (d : Record) (k k2 : Str) (v : Json) (h : k2 ≠ k) :
    dictGet (dictSet d k v) k2 = dictGet d k2 := by
  have hkk : (k == k2) = false := beq_eq_false_iff_ne.mpr (Ne.symm h)
  induction d with
  | nil => simp [dictSet, dictGet, hkk]
  | cons p rest ih =>
    obtain ⟨k', v'⟩ := p
    cases hk : (k' == k) with
    | true =>
      have hk' : k' = k := eq_of_beq hk
      subst hk'
      simp [dictSet, dictGet, hk, hkk]
    | false => simp [dictSet, dictGet, hk, ih]

theorem dictContains_dictSet_self (d : Record) (k : Str) (v : Json) :
    dictContains (dictSet d k v) k = true := by
  simp [dictContains, dictGet_dictSet_self]

theorem dictContains_dictSet_ne (d : Record) (k k2 : Str) (v : Json) (h : k2 ≠ k) :
    dictContains (dictSet d k v) k2 = dictContains d k2 := by
  simp [dictContains, dictGet_dictSet_ne d k k2 v h]

theorem dictSet_isEmpty (d : Record) (k : Str) (v : Json) :
    (dictSet d k v).isEmpty = false := by
  cases d with
  | nil => rfl
  | cons p rest =>
    obtain ⟨k', v'⟩ := p
    cases hk : (k' == k) with
    | true => simp [dictSet, hk]
    | false => simp [dictSet, hk]

theorem dictContains_ne_nil (d : Record) (k : Str) (h : dictContains d k = true) :
    d.isEmpty = false := by
  cases d with
  | nil => simp [dictContains, dictGet] at h
  | cons p rest => rfl

theorem parseVal_cons_j (f : Nat) (r : Str) : parseVal (f + 1) ('j' :: r) = none := rfl

theorem jsonLoads_cons_j (r : Str) : jsonLoads ('j' :: r) = none := by
  unfold jsonLoads
  have h : 2 * ('j' :: r).length + 4 = (2 * r.length + 5) + 1 := by
    simp [List.length_cons]; ring
  rw [h, parseVal_cons_j]

theorem not_json_head (s : Str) (o : List (Str × Json))
    (hload : jsonLoads s = some (Json.obj o)) :
    startsWith (s2l "json") (s ++ genericFence) = false := by
  cases s with
  | nil => rfl
  | cons c cs =>
    cases hc : startsWith (s2l "json") ((c :: cs) ++ genericFence) with
    | false => rfl
    | true =>
      have hcj : 'j' = c := startsWith_cons_eq 'j' (s2l "son") c (cs ++ genericFence) hc
      rw [← hcj] at hload
      rw [jsonLoads_cons_j] at hload
      exact absurd hload (by simp)

theorem stripFencesImage_jsonFence (s : Str) :
    stripFencesImage (jsonFence ++ s ++ genericFence) = s := by
  unfold stripFencesImage
  rw [List.append_assoc]
  rw [startsWith_append_self jsonFence (s ++ genericFence)]
  simp only [if_true]
  rw [show ((jsonFence ++ (s ++ genericFence)).drop 7) = s ++ genericFence from
    drop_length_append jsonFence (s ++ genericFence)]
  rw [endsWith_append_self s genericFence]
  simp only [if_true]
  exact take_append_sub s genericFence

theorem stripFencesText_jsonFence (s : Str) :
    stripFencesText (jsonFence ++ s ++ genericFence) = s := by
  unfold stripFencesText
  rw [List.append_assoc]
  rw [startsWith_append_self jsonFence (s ++ genericFence)]
  simp only [if_true]
  rw [show ((jsonFence ++ (s ++ genericFence)).drop 7) = s ++ genericFence from
    drop_length_append jsonFence (s ++ genericFence)]
  rw [endsWith_append_self s genericFence]
  simp only [if_true]
  exact take_append_sub s genericFence

theorem stripFencesText_genericFence (s : Str)
    (h : startsWith (s2l "json") (s ++ genericFence) = false) :
    stripFencesText (genericFence ++ s ++ genericFence) = s := by
  unfold stripFencesText
  rw [List.append_assoc]
  have h1 : startsWith jsonFence (genericFence ++ (s ++ genericFence)) = false := by
    have hj : jsonFence = genericFence ++ s2l "json" := rfl
    rw [hj, startsWith_append_cancel]
    exact h
  rw [h1]
  simp only [Bool.false_eq_true, if_false]
  rw [startsWith_append_self genericFence (s ++ genericFence)]
  simp only [if_true]
  rw [show ((genericFence ++ (s ++ genericFence)).drop 3) = s ++ genericFence from
    drop_length_append genericFence (s ++ genericFence)]
  rw [endsWith_append_self s genericFence]
  simp only [if_true]
  exact take_append_sub s genericFence

theorem analyze_image_parse_obj (t : Str) (o : List (Str × Json)) (tc : Int)
    (h : jsonLoads (stripFencesImage t) = some (Json.obj o)) :
    analyze_tensimeter_image_parse t tc = dictSet o kTokenCount (Json.num tc) := by
  simp [analyze_tensimeter_image_parse, h]

theorem analyze_text_parse_obj (t : Str) (o : List (Str × Json)) (tc : Int)
    (h : jsonLoads (stripFencesText t) = some (Json.obj o)) :
    analyze_text_with_gemini_parse t tc = dictSet o kTokenCount (Json.num tc) := by
  simp [analyze_text_with_gemini_parse, h]

/-! ## Claim theorems -/

/-- Claim C1, counterexample: the interior `\x7b\x7d` is a valid JSON-object
text, and wrapping it in the generic (non-JSON-tagged) fence marker is a
recognized fencing per the claim; yet the image-analysis path does not strip
the generic opening fence, so normalization yields the Unparsed fallback
dict (raw text plus parse-failure detail), not the Structured outcome. -/
theorem c1_counterexample :
    jsonLoads (s2l "\x7b\x7d") = some (Json.obj [])
    ∧ analyze_tensimeter_image_parse (genericFence ++ s2l "\x7b\x7d" ++ genericFence) 0
        = [(kRawText, Json.str (s2l "```\x7b\x7d")),
           (kErrorDetail, Json.str (jsonDecodeErrMsg (s2l "```\x7b\x7d")))]
    ∧ dictContains
        (analyze_tensimeter_image_parse (genericFence ++ s2l "\x7b\x7d" ++ genericFence) 0)
        kTokenCount = false :=
  ⟨rfl, rfl, rfl⟩

/-- Claim C1 (amended): for every text `s` that parses as a JSON object `o`,
fence-wrapped completions round-trip to the Structured outcome of the same
object (with the reserved token-count key attached, as on the unfenced
path) — for the JSON-tagged fence on BOTH analysis paths, and for the
generic fence on the TEXT-analysis path only; the image-analysis path does
not recognize the generic opening fence. -/
theorem c1_fence_roundtrip_amended (s : Str) (o : List (Str × Json)) (tc : Int)
    (h : jsonLoads s = some (Json.obj o)) :
    analyze_tensimeter_image_parse (jsonFence ++ s ++ genericFence) tc
        = dictSet o kTokenCount (Json.num tc)
    ∧ analyze_text_with_gemini_parse (jsonFence ++ s ++ genericFence) tc
        = dictSet o kTokenCount (Json.num tc)
    ∧ analyze_text_with_gemini_parse (genericFence ++ s ++ genericFence) tc
        = dictSet o kTokenCount (Json.num tc) := by
  refine ⟨?_, ?_, ?_⟩
  · exact analyze_image_parse_obj _ o tc (by rw [stripFencesImage_jsonFence]; exact h)
  · exact analyze_text_parse_obj _ o tc (by rw [stripFencesText_jsonFence]; exact h)
  · exact analyze_text_parse_obj _ o tc
      (by rw [stripFencesText_genericFence s (not_json_head s o h)]; exact h)

/-- Witness for C1 (amended) at the completion `\x7b"a":1\x7d`. -/
theorem c1_fence_roundtrip_amended_witness :
    jsonLoads (s2l "\x7b\x22a\x22:1\x7d") = some (Json.obj [(s2l "a", Json.num 1)])
    ∧ analyze_tensimeter_image_parse (jsonFence ++ s2l "\x7b\x22a\x22:1\x7d" ++ genericFence) 5
        = dictSet [(s2l "a", Json.num 1)] kTokenCount (Json.num 5) :=
  ⟨rfl, (c1_fence_roundtrip_amended (s2l "\x7b\x22a\x22:1\x7d") [(s2l "a", Json.num 1)] 5 rfl).1⟩

/-- Claim C2, counterexample: the completion `[]` is syntactically valid
JSON but not an object.  Normalization does not return the Unparsed outcome
(no `raw_text` key): the `data["_token_count"]` assignment raises
`TypeError`, the generic exception handler catches it, and the result is the
error-keyed dict — the ProviderError encoding — on both analysis paths. -/
theorem c2_counterexample :
    jsonLoads (s2l "[]") = some (Json.arr [])
    ∧ analyze_tensimeter_image_parse (s2l "[]") 0
        = [(kError, Json.str (pyTypeErrorMsg (Json.arr [])))]
    ∧ dictContains (analyze_tensimeter_image_parse (s2l "[]") 0) kRawText = false
    ∧ analyze_text_with_gemini_parse (s2l "[]") 0
        = [(kError, Json.str (pyTypeErrorMsg (Json.arr [])))]
    ∧ dictContains (analyze_text_with_gemini_parse (s2l "[]") 0) kRawText = false :=
  ⟨rfl, rfl, rfl, rfl, rfl⟩

/-- Claim C2 (amended): a completion that is valid JSON but not an object
yields, on both analysis paths, the error-keyed dict carrying the
`TypeError` description from the token-attach assignment — not the Unparsed
outcome and not a Structured outcome. -/
theorem c2_nonobject_amended :
    (∀ (t : Str) (v : Json) (tc : Int),
      jsonLoads (stripFencesImage t) = some v → v.isObjB = false →
      analyze_tensimeter_image_parse t tc = [(kError, Json.str (pyTypeErrorMsg v))])
    ∧ (∀ (t : Str) (v : Json) (tc : Int),
      jsonLoads (stripFencesText t) = some v → v.isObjB = false →
      analyze_text_with_gemini_parse t tc = [(kError, Json.str (pyTypeErrorMsg v))]) := by
  constructor
  · intro t v tc h hv
    cases v <;> simp_all [analyze_tensimeter_image_parse, Json.isObjB]
  · intro t v tc h hv
    cases v <;> simp_all [analyze_text_with_gemini_parse, Json.isObjB]

/-- Witness for C2 (amended) at the completion `42`. -/
theorem c2_nonobject_amended_witness :
    jsonLoads (stripFencesImage (s2l "42")) = some (Json.num 42)
    ∧ (Json.num 42).isObjB = false
    ∧ analyze_tensimeter_image_parse (s2l "42") 0
        = [(kError, Json.str (pyTypeErrorMsg (Json.num 42)))] :=
  ⟨rfl, rfl, c2_nonobject_amended.1 (s2l "42") (Json.num 42) 0 rfl rfl⟩

/-- Claim C4: on both analysis paths, when the fence-stripped completion is
not valid JSON, normalization returns the Unparsed dict carrying exactly the
post-fence-stripped text under `raw_text` plus a parse-failure description
under `error_detail`.  (The model is a total function: nothing in the parse
region can escape to the caller, mirroring that `json.JSONDecodeError` is
caught and the slicing operations cannot raise.) -/
theorem c4_unparsed_fallback :
    (∀ (t : Str) (tc : Int), jsonLoads (stripFencesImage t) = none →
      analyze_tensimeter_image_parse t tc
        = [(kRawText, Json.str (stripFencesImage t)),
           (kErrorDetail, Json.str (jsonDecodeErrMsg (stripFencesImage t)))])
    ∧ (∀ (t : Str) (tc : Int), jsonLoads (stripFencesText t) = none →
      analyze_text_with_gemini_parse t tc
        = [(kRawText, Json.str (stripFencesText t)),
           (kErrorDetail, Json.str (jsonDecodeErrMsg (stripFencesText t)))]) := by
  constructor
  · intro t tc h
    simp [analyze_tensimeter_image_parse, h]
  · intro t tc h
    simp [analyze_text_with_gemini_parse, h]

/-- Witness for C4 at the empty completion: Unparsed with empty raw text. -/
theorem c4_unparsed_fallback_witness :
    stripFencesImage [] = ([] : Str)
    ∧ jsonLoads ([] : Str) = none
    ∧ analyze_tensimeter_image_parse [] 0
        = [(kRawText, Json.str []), (kErrorDetail, Json.str (jsonDecodeErrMsg []))]
    ∧ analyze_text_with_gemini_parse [] 0
        = [(kRawText, Json.str []), (kErrorDetail, Json.str (jsonDecodeErrMsg []))] :=
  ⟨rfl, rfl, c4_unparsed_fallback.1 [] 0 rfl, c4_unparsed_fallback.2 [] 0 rfl⟩

/-- Claim C10: attaching the token count to a successfully parsed object
mutates only the reserved `_token_count` key — every other key keeps its
value (`dictGet` unchanged), and an existing `_token_count` in the parsed
object is overwritten with the accounting call's count — on both paths. -/
theorem c10_token_attach_frame :
    (∀ (t : Str) (d : List (Str × Json)) (tc : Int) (k : Str),
      jsonLoads (stripFencesImage t) = some (Json.obj d) →
      analyze_tensimeter_image_parse t tc = dictSet d kTokenCount (Json.num tc)
      ∧ dictGet (analyze_tensimeter_image_parse t tc) kTokenCount = some (Json.num tc)
      ∧ (k ≠ kTokenCount →
          dictGet (analyze_tensimeter_image_parse t tc) k = dictGet d k))
    ∧ (∀ (t : Str) (d : List (Str × Json)) (tc : Int) (k : Str),
      jsonLoads (stripFencesText t) = some (Json.obj d) →
      analyze_text_with_gemini_parse t tc = dictSet d kTokenCount (Json.num tc)
      ∧ dictGet (analyze_text_with_gemini_parse t tc) kTokenCount = some (Json.num tc)
      ∧ (k ≠ kTokenCount →
          dictGet (analyze_text_with_gemini_parse t tc) k = dictGet d k)) := by
  constructor
  · intro t d tc k h
    have hres := analyze_image_parse_obj t d tc h
    refine ⟨hres, ?_, ?_⟩
    · rw [hres]; exact dictGet_dictSet_self _ _ _
    · intro hk; rw [hres]; exact dictGet_dictSet_ne _ _ _ _ hk
  · intro t d tc k h
    have hres := analyze_text_parse_obj t d tc h
    refine ⟨hres, ?_, ?_⟩
    · rw [hres]; exact dictGet_dictSet_self _ _ _
    · intro hk; rw [hres]; exact dictGet_dictSet_ne _ _ _ _ hk

/-- Witness for C10 at a parsed object that already carries `_token_count`
(value 7, overwritten with 5) and another key `a` (preserved). -/
theorem c10_token_attach_frame_witness :
    jsonLoads (stripFencesImage (s2l "\x7b\x22a\x22:1,\x22_token_count\x22:7\x7d"))
      = some (Json.obj [(s2l "a", Json.num 1), (kTokenCount, Json.num 7)])
    ∧ dictGet (analyze_tensimeter_image_parse
        (s2l "\x7b\x22a\x22:1,\x22_token_count\x22:7\x7d") 5) kTokenCount
      = some (Json.num 5)
    ∧ dictGet (analyze_tensimeter_image_parse
        (s2l "\x7b\x22a\x22:1,\x22_token_count\x22:7\x7d") 5) (s2l "a")
      = dictGet [(s2l "a", Json.num 1), (kTokenCount, Json.num 7)] (s2l "a") :=
  ⟨rfl,
   ((c10_token_attach_frame.1 (s2l "\x7b\x22a\x22:1,\x22_token_count\x22:7\x7d")
      [(s2l "a", Json.num 1), (kTokenCount, Json.num 7)] 5 (s2l "a") rfl).2).1,
   ((c10_token_attach_frame.1 (s2l "\x7b\x22a\x22:1,\x22_token_count\x22:7\x7d")
      [(s2l "a", Json.num 1), (kTokenCount, Json.num 7)] 5 (s2l "a") rfl).2).2 (by decide)⟩

/-- Claim C3, counterexample: on the text-derived path a record whose `date`
is present and is NOT the sentinel — the empty string — is still rewritten
to the current date, because the handler also tests `not date_val`
(truthiness).  The claim says such a record keeps its `date` unchanged. -/
theorem c3_counterexample :
    dictGet [(kDate, Json.str [])] kDate = some (Json.str [])
    ∧ pyEqStr (Json.str []) notVisible = false
    ∧ enrich_text_date [(kDate, Json.str [])] (s2l "2025-06-01")
        = [(kDate, Json.str (s2l "2025-06-01"))] :=
  ⟨rfl, rfl, rfl⟩

theorem dictGet_none_of_contains_false (d : Record) (k : Str)
    (h : dictContains d k = false) : dictGet d k = none := by
  cases hg : dictGet d k with
  | none => rfl
  | some v => rw [dictContains, hg] at h; cases h

/-- Claim C3 (amended): the image-derived path rewrites `date` to the
current date exactly when the key is absent or its value is the sentinel,
and keeps any other value unchanged; the text-derived path additionally
rewrites when the present value is falsy (empty string, 0, false, null,
empty container), and keeps a non-sentinel, non-falsy value unchanged.
`today` stands for `datetime.now().strftime("%Y-%m-%d")`. -/
theorem c3_date_enrichment_amended :
    (∀ (d : Record) (today : Str), dictContains d kDate = false →
      enrich_photo_date d today = dictSet d kDate (Json.str today)
      ∧ enrich_text_date d today = dictSet d kDate (Json.str today))
    ∧ (∀ (d : Record) (today : Str), dictGet d kDate = some (Json.str notVisible) →
      enrich_photo_date d today = dictSet d kDate (Json.str today)
      ∧ enrich_text_date d today = dictSet d kDate (Json.str today))
    ∧ (∀ (d : Record) (today : Str) (v : Json), dictGet d kDate = some v →
      pyEqStr v notVisible = false →
      enrich_photo_date d today = d)
    ∧ (∀ (d : Record) (today : Str) (v : Json), dictGet d kDate = some v →
      pyEqStr v notVisible = false → pyFalsy v = false →
      enrich_text_date d today = d) := by
  refine ⟨?_, ?_, ?_, ?_⟩
  · intro d today h
    have hg : dictGet d kDate = none := dictGet_none_of_contains_false d kDate h
    constructor <;>
      simp [enrich_photo_date, enrich_text_date, dictGetD, hg, h, pyEqStr]
  · intro d today h
    have hc : dictContains d kDate = true := by simp [dictContains, h]
    constructor <;>
      simp [enrich_photo_date, enrich_text_date, dictGetD, h, hc, pyEqStr]
  · intro d today v h hv
    have hc : dictContains d kDate = true := by simp [dictContains, h]
    simp [enrich_photo_date, dictGetD, h, hc, hv]
  · intro d today v h hv hf
    have hc : dictContains d kDate = true := by simp [dictContains, h]
    simp [enrich_text_date, dictGetD, h, hc, hv, hf]

/-- Witness for C3 (amended): an explicit non-sentinel date on the image
path stays unchanged. -/
theorem c3_date_enrichment_amended_witness :
    dictGet [(kDate, Json.str (s2l "2024-01-01"))] kDate
      = some (Json.str (s2l "2024-01-01"))
    ∧ pyEqStr (Json.str (s2l "2024-01-01")) notVisible = false
    ∧ enrich_photo_date [(kDate, Json.str (s2l "2024-01-01"))] (s2l "2025-06-01")
      = [(kDate, Json.str (s2l "2024-01-01"))] :=
  ⟨rfl, rfl,
   (c3_date_enrichment_amended.2.2.1) [(kDate, Json.str (s2l "2024-01-01"))]
     (s2l "2025-06-01") (Json.str (s2l "2024-01-01")) rfl rfl⟩

theorem enrich_photo_date_of_set (d : Record) (today : Str)
    (hbeq : (today == notVisible) = false) :
    enrich_photo_date (dictSet d kDate (Json.str today)) today
      = dictSet d kDate (Json.str today) := by
  simp [enrich_photo_date, dictGetD, dictGet_dictSet_self, pyEqStr, hbeq,
        dictContains_dictSet_self]

theorem enrich_text_date_of_set (d : Record) (today : Str)
    (hbeq : (today == notVisible) = false) (hemp : today.isEmpty = false) :
    enrich_text_date (dictSet d kDate (Json.str today)) today
      = dictSet d kDate (Json.str today) := by
  simp [enrich_text_date, dictGetD, dictGet_dictSet_self, pyEqStr, hbeq,
        dictContains_dictSet_self, pyFalsy, hemp]

/-- Claim C5: with the current-date string held fixed (it is a strftime
`%Y-%m-%d` rendering, hence neither the sentinel `"Not visible"` nor
empty), date enrichment is idempotent on every record, on both paths: after
one application the date no longer matches the rewrite conditions. -/
theorem c5_enrich_idempotent (d : Record) (today : Str)
    (h1 : today ≠ notVisible) (h2 : today ≠ []) :
    enrich_photo_date (enrich_photo_date d today) today = enrich_photo_date d today
    ∧ enrich_text_date (enrich_text_date d today) today = enrich_text_date d today := by
  have hbeq : (today == notVisible) = false := beq_eq_false_iff_ne.mpr h1
  have hemp : today.isEmpty = false := by
    cases today with
    | nil => exact absurd rfl h2
    | cons a b => rfl
  constructor
  · cases hc : (pyEqStr (dictGetD d kDate (Json.str notVisible)) notVisible
        || !dictContains d kDate) with
    | true =>
      have he : enrich_photo_date d today = dictSet d kDate (Json.str today) := by
        simp [enrich_photo_date, hc]
      rw [he]
      exact enrich_photo_date_of_set d today hbeq
    | false =>
      have he : enrich_photo_date d today = d := by
        simp only [enrich_photo_date, hc, Bool.false_eq_true, if_false]
      rw [he]
      exact he
  · cases hc : (pyEqStr (dictGetD d kDate (Json.str notVisible)) notVisible
        || pyFalsy (dictGetD d kDate (Json.str notVisible))
        || !dictContains d kDate) with
    | true =>
      have he : enrich_text_date d today = dictSet d kDate (Json.str today) := by
        simp [enrich_text_date, hc]
      rw [he]
      exact enrich_text_date_of_set d today hbeq hemp
    | false =>
      have he : enrich_text_date d today = d := by
        simp only [enrich_text_date, hc, Bool.false_eq_true, if_false]
      rw [he]
      exact he

/-- Witness for C5 at a record with a sentinel date and today = 2025-01-02. -/
theorem c5_enrich_idempotent_witness :
    (s2l "2025-01-02") ≠ notVisible
    ∧ (s2l "2025-01-02") ≠ ([] : Str)
    ∧ enrich_photo_date
        (enrich_photo_date [(kDate, Json.str notVisible)] (s2l "2025-01-02"))
        (s2l "2025-01-02")
      = enrich_photo_date [(kDate, Json.str notVisible)] (s2l "2025-01-02")
    ∧ enrich_text_date
        (enrich_text_date [(kDate, Json.str notVisible)] (s2l "2025-01-02"))
        (s2l "2025-01-02")
      = enrich_text_date [(kDate, Json.str notVisible)] (s2l "2025-01-02") :=
  ⟨by decide, by decide,
   (c5_enrich_idempotent [(kDate, Json.str notVisible)] (s2l "2025-01-02")
      (by decide) (by decide)).1,
   (c5_enrich_idempotent [(kDate, Json.str notVisible)] (s2l "2025-01-02")
      (by decide) (by decide)).2⟩

theorem isEmpty_false_of_ne_nil (s : Str) (h : s ≠ []) : s.isEmpty = false := by
  cases s with
  | nil => exact absurd rfl h
  | cons a b => rfl

/-- Claim C6: an inbound photo or text message from a sender whose identity
differs from the configured authorized identity always yields exactly the
fixed local-language rejection reply, with no provider call (no
`Effect.geminiCall`) and no further processing — on both handlers. -/
theorem c6_unauthorized_rejection (user_id authorized_user_id : Int)
    (h : user_id ≠ authorized_user_id) (res : Record) (url : Str)
    (net : PostOutcome) (today msg : Str) (hmsg : msg ≠ []) :
    handle_photo user_id authorized_user_id true res url net today
      = ([Effect.reply msgUnauthorized], none)
    ∧ handle_text_message user_id authorized_user_id msg res url net today
      = ([Effect.reply msgUnauthorized], none)
    ∧ Effect.geminiCall ∉ (handle_photo user_id authorized_user_id true res url net today).1
    ∧ Effect.geminiCall ∉
        (handle_text_message user_id authorized_user_id msg res url net today).1 := by
  have hb : (user_id != authorized_user_id) = true := by simp [bne_iff_ne, h]
  have hm : msg.isEmpty = false := isEmpty_false_of_ne_nil msg hmsg
  have h1 : handle_photo user_id authorized_user_id true res url net today
      = ([Effect.reply msgUnauthorized], none) := by
    simp [handle_photo, hb]
  have h2 : handle_text_message user_id authorized_user_id msg res url net today
      = ([Effect.reply msgUnauthorized], none) := by
    simp [handle_text_message, hb, hm]
  refine ⟨h1, h2, ?_, ?_⟩
  · rw [h1]; simp
  · rw [h2]; simp

/-- Witness for C6 at sender 1 against authorized identity 2. -/
theorem c6_unauthorized_rejection_witness :
    (1 : Int) ≠ (2 : Int)
    ∧ handle_photo 1 2 true [] [] PostOutcome.exc (s2l "2025-01-02")
        = ([Effect.reply msgUnauthorized], none)
    ∧ handle_text_message 1 2 (s2l "tensi 120/80") [] [] PostOutcome.exc (s2l "2025-01-02")
        = ([Effect.reply msgUnauthorized], none) :=
  ⟨by decide,
   (c6_unauthorized_rejection 1 2 (by decide) [] [] PostOutcome.exc (s2l "2025-01-02")
      (s2l "tensi 120/80") (by decide)).1,
   (c6_unauthorized_rejection 1 2 (by decide) [] [] PostOutcome.exc (s2l "2025-01-02")
      (s2l "tensi 120/80") (by decide)).2.1⟩

/-- Claim C7, counterexample: a delivered response with final status 304
(not a 2xx) makes the relay return true — `raise_for_status` raises only for
status codes 400-599 — contradicting "false on any non-2xx status, true
only on a 2xx response". -/
theorem c7_counterexample :
    send_to_gsheet (Json.obj []) (s2l "https://example.invalid/hook") (PostOutcome.resp 304)
      = (true, [gsheetTimeoutSeconds]) := rfl

/-- Claim C7 (amended): the relay returns false and performs no POST when
the webhook URL is unconfigured or the record is not a dict; with a URL and
a dict it performs exactly one POST with the fixed 20-second timeout and
never retries, returning false on a transport exception or on a delivered
status in 400-599, and true on any other delivered status (in particular
every 2xx, but also 1xx/3xx such as 304). -/
theorem c7_relay_amended :
    (∀ (d : Json) (net : PostOutcome), send_to_gsheet d [] net = (false, []))
    ∧ (∀ (d : Json) (url : Str) (net : PostOutcome), d.isObjB = false →
        send_to_gsheet d url net = (false, []))
    ∧ (∀ (o : List (Str × Json)) (url : Str), url ≠ [] →
        send_to_gsheet (Json.obj o) url PostOutcome.exc
          = (false, [gsheetTimeoutSeconds]))
    ∧ (∀ (o : List (Str × Json)) (url : Str) (s : Nat), url ≠ [] →
        400 ≤ s → s < 600 →
        send_to_gsheet (Json.obj o) url (PostOutcome.resp s)
          = (false, [gsheetTimeoutSeconds]))
    ∧ (∀ (o : List (Str × Json)) (url : Str) (s : Nat), url ≠ [] →
        (s < 400 ∨ 600 ≤ s) →
        send_to_gsheet (Json.obj o) url (PostOutcome.resp s)
          = (true, [gsheetTimeoutSeconds]))
    ∧ (∀ (d : Json) (url : Str) (net : PostOutcome),
        (send_to_gsheet d url net).2.length ≤ 1) := by
  refine ⟨?_, ?_, ?_, ?_, ?_, ?_⟩
  · intro d net
    simp [send_to_gsheet]
  · intro d url net hd
    cases hu : url.isEmpty with
    | true => simp [send_to_gsheet, hu]
    | false => simp [send_to_gsheet, hu, hd]
  · intro o url hu
    have hue : url.isEmpty = false := isEmpty_false_of_ne_nil url hu
    simp [send_to_gsheet, hue, Json.isObjB]
  · intro o url s hu h1 h2
    have hue : url.isEmpty = false := isEmpty_false_of_ne_nil url hu
    simp [send_to_gsheet, hue, Json.isObjB, h1, h2]
  · intro o url s hu h12
    have hue : url.isEmpty = false := isEmpty_false_of_ne_nil url hu
    simp [send_to_gsheet, hue, Json.isObjB]
    omega
  · intro d url net
    cases hu : url.isEmpty with
    | true => simp [send_to_gsheet, hu]
    | false =>
      cases hd : d.isObjB with
      | false => simp [send_to_gsheet, hu, hd]
      | true =>
        cases net with
        | exc => simp [send_to_gsheet, hu, hd]
        | resp s =>
          by_cases hs : (400 ≤ s ∧ s < 600) <;> simp [send_to_gsheet, hu, hd, hs]

/-- Witness for C7 (amended): the no-URL case, a 404 failure, a 200 success
and a transport-exception failure, all at concrete inputs. -/
theorem c7_relay_amended_witness :
    send_to_gsheet (Json.obj []) [] (PostOutcome.resp 200) = (false, [])
    ∧ send_to_gsheet (Json.arr []) (s2l "https://example.invalid/hook")
        (PostOutcome.resp 200) = (false, [])
    ∧ send_to_gsheet (Json.obj []) (s2l "https://example.invalid/hook")
        (PostOutcome.resp 404) = (false, [gsheetTimeoutSeconds])
    ∧ send_to_gsheet (Json.obj []) (s2l "https://example.invalid/hook")
        (PostOutcome.resp 200) = (true, [gsheetTimeoutSeconds])
    ∧ send_to_gsheet (Json.obj []) (s2l "https://example.invalid/hook")
        PostOutcome.exc = (false, [gsheetTimeoutSeconds]) :=
  ⟨c7_relay_amended.1 (Json.obj []) (PostOutcome.resp 200),
   c7_relay_amended.2.1 (Json.arr []) (s2l "https://example.invalid/hook")
     (PostOutcome.resp 200) rfl,
   c7_relay_amended.2.2.2.1 [] (s2l "https://example.invalid/hook") 404
     (by decide) (by omega) (by omega),
   c7_relay_amended.2.2.2.2.1 [] (s2l "https://example.invalid/hook") 200
     (by decide) (Or.inl (by omega)),
   c7_relay_amended.2.2.1 [] (s2l "https://example.invalid/hook") (by decide)⟩

theorem handle_photo_failure_branch (auth : Int) (res : Record) (url : Str)
    (net : PostOutcome) (today : Str) (hne : res.isEmpty = false)
    (h : dictContains res kError = true ∨ dictContains res kRawText = true) :
    handle_photo auth auth true res url net today
      = ([Effect.reply msgPhotoProcessing, Effect.geminiCall,
          Effect.reply ((if dictContains res kError then errorBranchReply photoHeader res
                         else rawBranchReply photoHeader res) ++ tokenLine res)],
         some res) := by
  cases herr : dictContains res kError with
  | true => simp [handle_photo, hne, herr]
  | false =>
    have hraw : dictContains res kRawText = true := by
      cases h with
      | inl hh => rw [herr] at hh; cases hh
      | inr hh => exact hh
    simp [handle_photo, hne, herr, hraw]

theorem handle_text_failure_branch (auth : Int) (res : Record) (url : Str)
    (net : PostOutcome) (today msg : Str) (hm : msg.isEmpty = false)
    (hne : res.isEmpty = false)
    (h : dictContains res kError = true ∨ dictContains res kRawText = true) :
    handle_text_message auth auth msg res url net today
      = ([Effect.reply msgTextProcessing, Effect.geminiCall,
          Effect.reply ((if dictContains res kError then errorBranchReply textHeader res
                         else rawBranchReply textHeader res) ++ tokenLine res)],
         some res) := by
  cases herr : dictContains res kError with
  | true => simp [handle_text_message, hm, hne, herr]
  | false =>
    have hraw : dictContains res kRawText = true := by
      cases h with
      | inl hh => rw [herr] at hh; cases hh
      | inr hh => exact hh
    simp [handle_text_message, hm, hne, herr, hraw]

/-- Claim C8: a non-Structured outcome — any analysis dict carrying the
reserved `error` key (Blocked / ProviderError encodings) or the `raw_text`
key (Unparsed encoding) — passes through both handlers unchanged: the final
record equals the input record (no date rewrite, no field defaulting) and no
relay POST is performed. -/
theorem c8_failure_passthrough (auth : Int) (res : Record) (url : Str)
    (net : PostOutcome) (today msg : Str) (hmsg : msg ≠ [])
    (h : dictContains res kError = true ∨ dictContains res kRawText = true) :
    (handle_photo auth auth true res url net today).2 = some res
    ∧ (∀ ts, Effect.gsheetPost ts ∉ (handle_photo auth auth true res url net today).1)
    ∧ (handle_text_message auth auth msg res url net today).2 = some res
    ∧ (∀ ts, Effect.gsheetPost ts
        ∉ (handle_text_message auth auth msg res url net today).1) := by
  have hne : res.isEmpty = false := by
    cases h with
    | inl hh => exact dictContains_ne_nil _ _ hh
    | inr hh => exact dictContains_ne_nil _ _ hh
  have hm : msg.isEmpty = false := isEmpty_false_of_ne_nil msg hmsg
  have hp := handle_photo_failure_branch auth res url net today hne h
  have ht := handle_text_failure_branch auth res url net today msg hm hne h
  refine ⟨?_, ?_, ?_, ?_⟩
  · rw [hp]
  · intro ts; rw [hp]; simp
  · rw [ht]
  · intro ts; rw [ht]; simp

/-- Witness for C8 at the Blocked-style record `\x7b"error": "boom"\x7d`. -/
theorem c8_failure_passthrough_witness :
    dictContains [(kError, Json.str (s2l "boom"))] kError = true
    ∧ (handle_photo 7 7 true [(kError, Json.str (s2l "boom"))] []
        PostOutcome.exc (s2l "2025-01-02")).2 = some [(kError, Json.str (s2l "boom"))]
    ∧ (handle_text_message 7 7 (s2l "x") [(kError, Json.str (s2l "boom"))] []
        PostOutcome.exc (s2l "2025-01-02")).2 = some [(kError, Json.str (s2l "boom"))] :=
  ⟨rfl,
   (c8_failure_passthrough 7 [(kError, Json.str (s2l "boom"))] [] PostOutcome.exc
      (s2l "2025-01-02") (s2l "x") (by decide) (Or.inl rfl)).1,
   (c8_failure_passthrough 7 [(kError, Json.str (s2l "boom"))] [] PostOutcome.exc
      (s2l "2025-01-02") (s2l "x") (by decide) (Or.inl rfl)).2.2.1⟩

/-- Claim C9: when the completion parses to a JSON object that itself
contains the reserved key `error` (or, failing that, `raw_text`),
normalization succeeds — the result is the parsed object with the token
count attached — yet both handlers classify it as a failure: the reply is
the error-branch (or raw-text-branch) rendering, the record passes through
with no date enrichment, and no relay POST is performed.  Outcome variants
are encoded by the presence of reserved dictionary keys, not a separate
tag. -/
theorem c9_reserved_key_failure (t : Str) (d : List (Str × Json)) (tc : Int)
    (auth : Int) (url today msg : Str) (net : PostOutcome) (hmsg : msg ≠ [])
    (hload : jsonLoads (stripFencesImage t) = some (Json.obj d))
    (hkey : dictContains d kError = true ∨ dictContains d kRawText = true) :
    analyze_tensimeter_image_parse t tc = dictSet d kTokenCount (Json.num tc)
    ∧ (handle_photo auth auth true (analyze_tensimeter_image_parse t tc) url net today).1
        = [Effect.reply msgPhotoProcessing, Effect.geminiCall,
           Effect.reply
             ((if dictContains (analyze_tensimeter_image_parse t tc) kError then
                 errorBranchReply photoHeader (analyze_tensimeter_image_parse t tc)
               else rawBranchReply photoHeader (analyze_tensimeter_image_parse t tc))
              ++ tokenLine (analyze_tensimeter_image_parse t tc))]
    ∧ (handle_photo auth auth true (analyze_tensimeter_image_parse t tc) url net today).2
        = some (analyze_tensimeter_image_parse t tc)
    ∧ (∀ ts, Effect.gsheetPost ts
        ∉ (handle_photo auth auth true (analyze_tensimeter_image_parse t tc) url net today).1)
    ∧ (handle_text_message auth auth msg (analyze_tensimeter_image_parse t tc) url net today).2
        = some (analyze_tensimeter_image_parse t tc)
    ∧ (∀ ts, Effect.gsheetPost ts
        ∉ (handle_text_message auth auth msg (analyze_tensimeter_image_parse t tc)
            url net today).1) := by
  have hres := analyze_image_parse_obj t d tc hload
  have hkeyres : dictContains (analyze_tensimeter_image_parse t tc) kError = true
      ∨ dictContains (analyze_tensimeter_image_parse t tc) kRawText = true := by
    rw [hres]
    cases hkey with
    | inl hh => exact Or.inl (by rw [dictContains_dictSet_ne _ _ _ _ (by decide)]; exact hh)
    | inr hh => exact Or.inr (by rw [dictContains_dictSet_ne _ _ _ _ (by decide)]; exact hh)
  have hne : (analyze_tensimeter_image_parse t tc).isEmpty = false := by
    rw [hres]; exact dictSet_isEmpty _ _ _
  have hm : msg.isEmpty = false := isEmpty_false_of_ne_nil msg hmsg
  have hp := handle_photo_failure_branch auth (analyze_tensimeter_image_parse t tc)
    url net today hne hkeyres
  have ht := handle_text_failure_branch auth (analyze_tensimeter_image_parse t tc)
    url net today msg hm hne hkeyres
  refine ⟨hres, ?_, ?_, ?_, ?_, ?_⟩
  · rw [hp]
  · rw [hp]
  · intro ts; rw [hp]; simp
  · rw [ht]
  · intro ts; rw [ht]; simp

/-- Witness for C9 at the completion `\x7b"error":"x"\x7d`: normalization
succeeds, but the photo handler renders the error branch and relays
nothing. -/
theorem c9_reserved_key_failure_witness :
    jsonLoads (stripFencesImage (s2l "\x7b\x22error\x22:\x22x\x22\x7d"))
      = some (Json.obj [(kError, Json.str (s2l "x"))])
    ∧ analyze_tensimeter_image_parse (s2l "\x7b\x22error\x22:\x22x\x22\x7d") 3
      = dictSet [(kError, Json.str (s2l "x"))] kTokenCount (Json.num 3)
    ∧ (handle_photo 7 7 true
        (analyze_tensimeter_image_parse (s2l "\x7b\x22error\x22:\x22x\x22\x7d") 3)
        [] PostOutcome.exc (s2l "2025-01-02")).2
      = some (analyze_tensimeter_image_parse (s2l "\x7b\x22error\x22:\x22x\x22\x7d") 3) :=
  ⟨rfl,
   (c9_reserved_key_failure (s2l "\x7b\x22error\x22:\x22x\x22\x7d")
      [(kError, Json.str (s2l "x"))] 3 7 [] (s2l "2025-01-02") (s2l "x")
      PostOutcome.exc (by decide) rfl (Or.inl rfl)).1,
   (c9_reserved_key_failure (s2l "\x7b\x22error\x22:\x22x\x22\x7d")
      [(kError, Json.str (s2l "x"))] 3 7 [] (s2l "2025-01-02") (s2l "x")
      PostOutcome.exc (by decide) rfl (Or.inl rfl)).2.2.1⟩
